import Mathlib

/-!
Verification of the composer completion-spec module (`src/composer.ts`).

The TypeScript module builds a declarative shell-completion tree for the
`composer` package manager.  It parses the JSON output of
`composer list --format=json` into a catalog of commands and transforms each
catalog command into a completion subcommand; two extra `recipes` subcommands
are appended when a `symfony.lock` file is present.  Two suggestion
generators (a remote packagist search and a local `composer.json` reader) are
attached to arguments of selected commands.

The embedding below mirrors the source definitions.  External effects are
made explicit: JSON parsing of the catalog is represented by an
`Option`-typed input (a failed parse is `none`, and a command record whose
field accesses would throw partway through the transformation is the
`CmdRecord.malformed` constructor), and the shell probe for `symfony.lock`
is represented by its textual output.
-/

/-- The fixed brand icon attached to every emitted subcommand
(`composerIcon` in the source). -/
def composerIcon : String :=
  "https://getcomposer.org/img/logo-composer-transparent5.png"

/-- The `default` field of a catalog argument: `null | string | Array<string>`
in the source's `ComposerArgument` interface. -/
inductive ComposerDefault where
  | null : ComposerDefault
  | str (s : String) : ComposerDefault
  | arr (l : List String) : ComposerDefault
  deriving DecidableEq

/-- JavaScript truthiness of a `ComposerDefault` value: `null` and the empty
string are falsy; every string with at least one character and every array
(including the empty array) is truthy. -/
def jsTruthy : ComposerDefault → Bool
  | ComposerDefault.null => false
  | ComposerDefault.str s => decide (s ≠ "")
  | ComposerDefault.arr _ => true

/-- Mirrors the source's `ComposerArgument` interface. -/
structure ComposerArgument where
  name : String
  is_required : Bool
  is_array : Bool
  description : String
  default : ComposerDefault
  deriving DecidableEq

/-- Mirrors the source's `ComposerOption` interface (the `default` field of an
option is `null | boolean` there, modelled as `Option Bool`). -/
structure ComposerOption where
  name : String
  shortcut : String
  accept_value : Bool
  is_value_required : Bool
  is_multiple : Bool
  description : String
  default : Option Bool
  deriving DecidableEq

/-- Mirrors `ComposerCommandDefinition`: the `arguments` and `options` records
are modelled as association lists in object-key insertion order, which is the
order `Object.keys` iterates them in the source. -/
structure ComposerCommandDefinition where
  arguments : List (String × ComposerArgument)
  options : List (String × ComposerOption)
  deriving DecidableEq

/-- Mirrors the source's `ComposerCommand` interface. -/
structure ComposerCommand where
  name : String
  usage : List String
  description : String
  help : String
  definition : ComposerCommandDefinition
  deriving DecidableEq

/-- A value that is either a single `α` or an array of `α`, mirroring the
`T | T[]` unions in the Fig schema (subcommand names, option names,
argument fields, generators). -/
inductive SingleOrList (α : Type) where
  | single (a : α) : SingleOrList α
  | list (l : List α) : SingleOrList α
  deriving DecidableEq

/-- Projection of a `SingleOrList` to the list of its elements. -/
def SingleOrList.toList {α : Type} : SingleOrList α → List α
  | SingleOrList.single a => [a]
  | SingleOrList.list l => l

/-- The two suggestion generators defined in the source: `searchGenerator`
(remote packagist search) and `packagesGenerator` (local `composer.json`
reader). -/
inductive GeneratorRef where
  | search : GeneratorRef
  | packages : GeneratorRef
  deriving DecidableEq

/-- The value of the `generators` field of an emitted argument: in the source
it is either a single generator object or an array of generators (the code
assigns `searchGenerator`, `packagesGenerator`, or `[]`). -/
abbrev GeneratorsField : Type := SingleOrList GeneratorRef

/-- An emitted Fig argument object.  Fields that the source sometimes leaves
absent are `Option`-typed, with `none` for an absent field. -/
structure FigArg where
  name : Option String := none
  description : Option String := none
  isOptional : Option Bool := none
  default : Option String := none
  isVariadic : Option Bool := none
  generators : Option GeneratorsField := none
  template : Option String := none
  deriving DecidableEq

/-- An emitted Fig option object. -/
structure FigOption where
  name : SingleOrList String
  description : Option String := none
  isRequired : Option Bool := none
  args : Option FigArg := none
  exclusiveOn : Option (List String) := none
  isDangerous : Option Bool := none
  deriving DecidableEq

/-- An emitted Fig subcommand object.  Catalog-derived subcommands carry a
single name and an array of arguments; the two recipe subcommands carry an
array of names and a single argument object. -/
structure FigSubcommand where
  name : SingleOrList String
  description : String
  icon : String
  args : SingleOrList FigArg
  options : List FigOption
  deriving DecidableEq

/-- The root of the returned completion tree: `{ name: "composer", subcommands }`. -/
structure FigSpecRoot where
  name : String
  subcommands : List FigSubcommand
  deriving DecidableEq

/-- A character matched by `.` in a JavaScript regular expression without the
`s` flag: any character except the four line terminators. -/
def isDotChar (c : Char) : Bool :=
  !(c = '\n' || c = '\r' || c = Char.ofNat 0x2028 || c = Char.ofNat 0x2029)

/-- Matching of the source's `PACKAGE_REGEXP = new RegExp("^.*/.*$")` against
a list of characters: the string must split as a run of `.`-matchable
characters, a `/`, and another run of `.`-matchable characters. -/
def packageRegexpAux : List Char → Bool
  | [] => false
  | c :: rest =>
      (c = '/' && rest.all isDotChar) || (isDotChar c && packageRegexpAux rest)

/-- `dependency.match(PACKAGE_REGEXP)` is non-null, where
`PACKAGE_REGEXP = ^.*/.*$`. -/
def packageRegexpMatches (s : String) : Bool :=
  packageRegexpAux s.data

/-- Mirrors `filterRealDependencies`: keep the keys of the dependency mapping
(in iteration order) that match `PACKAGE_REGEXP`. -/
def filterRealDependencies (dependencies : List (String × String)) : List String :=
  (dependencies.map Prod.fst).filter packageRegexpMatches

/-- A character removed by JavaScript's `String.prototype.trim`: the
WhiteSpace and LineTerminator characters of the ECMAScript specification. -/
def isJsWhitespace (c : Char) : Bool :=
  c = ' ' || c = '\t' || c = '\n' || c = '\r' ||
  c = Char.ofNat 0x0b || c = Char.ofNat 0x0c ||
  c = Char.ofNat 0xa0 || c = Char.ofNat 0x1680 ||
  (0x2000 ≤ c.toNat && c.toNat ≤ 0x200a) ||
  c = Char.ofNat 0x2028 || c = Char.ofNat 0x2029 ||
  c = Char.ofNat 0x202f || c = Char.ofNat 0x205f ||
  c = Char.ofNat 0x3000 || c = Char.ofNat 0xfeff

/-- JavaScript `String.prototype.trim`: drop leading and trailing
whitespace. -/
def jsTrim (s : String) : String :=
  String.mk (((s.data.dropWhile isJsWhitespace).reverse.dropWhile
    isJsWhitespace).reverse)

/-- JavaScript `String.prototype.endsWith` with no position argument: suffix
test. -/
def jsEndsWith (s suffixStr : String) : Bool :=
  decide (suffixStr.data.length ≤ s.data.length) &&
    decide (s.data.drop (s.data.length - suffixStr.data.length) = suffixStr.data)

/-- The fixed packagist suggestion icon used by both generators. -/
def packageEmoji : String := "📦"

/-- One entry of the `results` array expected from the packagist search
endpoint. -/
structure SearchResultItem where
  name : String
  description : String
  deriving DecidableEq

/-- An emitted Fig suggestion object. -/
structure FigSuggestion where
  name : String
  description : String
  icon : String
  deriving DecidableEq

/-- Mirrors the `script` function of `searchGenerator`: the last token of the
context is the search term; if it is the empty string the script is the empty
command (no external call).  An empty context makes `context[length - 1]`
evaluate to `undefined`, which fails the `=== ""` test and interpolates as
the text `undefined`. -/
def searchScript (context : List String) : String :=
  match context.getLast? with
  | some "" => ""
  | some searchTerm =>
      "curl -s -H \"Accept: application/json\" \"https://packagist.org/search.json?q="
        ++ searchTerm ++ "&per_page=20\""
  | none =>
      "curl -s -H \"Accept: application/json\" \"https://packagist.org/search.json?q=undefined&per_page=20\""

/-- Mirrors the `postProcess` function of `searchGenerator`.  The body runs
`JSON.parse(out).results.map(...)` inside a `try`: both a JSON parse error
and a shape error (missing or non-array `results`) throw and are caught,
returning `[]`.  The parse-and-extract step is modelled by the `Except`
input: `.error` is any thrown parse or shape error, `.ok` is a successfully
extracted `results` array. -/
def searchPostProcess (parsed : Except String (List SearchResultItem)) :
    List FigSuggestion :=
  match parsed with
  | Except.error _ => []
  | Except.ok results =>
      results.map fun item =>
        { name := item.name, description := item.description,
          icon := packageEmoji }

/-- The command names that trigger attachment of `packagesGenerator`
(`packagesGeneratorTriggersCommands` in the source). -/
def packagesGeneratorTriggersCommands : List String := ["update", "remove"]

/-- Default-value resolution for an emitted argument, mirroring
`arg.default ? (Array.isArray(arg.default) ? arg.default[0] : arg.default) : undefined`.
A truthy array yields its first element (`undefined` — i.e. `none` — when the
array is empty); a truthy string yields itself; a falsy value yields
`undefined`. -/
def resolveDefault (d : ComposerDefault) : Option String :=
  if jsTruthy d then
    match d with
    | ComposerDefault.arr l => l.head?
    | ComposerDefault.str s => some s
    | ComposerDefault.null => none
  else none

/-- The per-argument transformation inside `generateSpec`'s `args` mapping:
builds the emitted argument from a catalog argument, attaching
`searchGenerator` when the enclosing command is named `require`,
`packagesGenerator` when its name is listed in
`packagesGeneratorTriggersCommands`, and the empty generator array
otherwise. -/
def transformArgument (cmdName : String) (arg : ComposerArgument) : FigArg :=
  { name := some arg.name
    description := some arg.description
    isOptional := some (!arg.is_required)
    default := resolveDefault arg.default
    isVariadic := some arg.is_array
    generators := some
      (if cmdName = "require" then SingleOrList.single GeneratorRef.search
       else if packagesGeneratorTriggersCommands.contains cmdName then
         SingleOrList.single GeneratorRef.packages
       else SingleOrList.list [])
    template := none }

/-- The per-option transformation inside `generateSpec`'s `options` mapping:
the alias array starts with the option's name and appends the (untrimmed)
shortcut when the trimmed shortcut is non-empty; a nested empty argument
object is attached exactly when the option accepts a value; the emitted
`isRequired` flag is the catalog option's `is_value_required`. -/
def transformOption (opt : ComposerOption) : FigOption :=
  let names :=
    [opt.name] ++ (if 0 < (jsTrim opt.shortcut).length then [opt.shortcut] else [])
  { name := SingleOrList.list names
    description := some opt.description
    isRequired := some opt.is_value_required
    args := if opt.accept_value then some {} else none
    exclusiveOn := none
    isDangerous := none }

/-- The per-command transformation inside `generateSpec`'s `for` loop: one
emitted subcommand per catalog command, with its arguments and options
mapped in insertion order. -/
def transformCommand (c : ComposerCommand) : FigSubcommand :=
  { name := SingleOrList.single c.name
    description := c.description
    icon := composerIcon
    args := SingleOrList.list
      (c.definition.arguments.map fun p => transformArgument c.name p.2)
    options := c.definition.options.map fun p => transformOption p.2 }

/-- The `recipesCommonOptions` array of the source: the shared bundle of
thirteen common flags attached to both recipe subcommands. -/
def recipesCommonOptions : List FigOption :=
  [ { name := SingleOrList.list ["-h", "--help"],
      description := some "Display this help message" },
    { name := SingleOrList.list ["-q", "--quiet"],
      description := some "Do not output any message" },
    { name := SingleOrList.list ["-V", "--version"],
      description := some "Display this application version" },
    { name := SingleOrList.single "--ansi",
      description := some "Force ANSI output",
      exclusiveOn := some ["--no-ansi"] },
    { name := SingleOrList.single "--no-ansi",
      description := some "Disable ANSI output",
      exclusiveOn := some ["--ansi"] },
    { name := SingleOrList.list ["-n", "--no-interaction"],
      description := some "Do not ask any interactive question" },
    { name := SingleOrList.single "--profile",
      description := some "Display timing and memory usage information" },
    { name := SingleOrList.single "--no-plugins",
      description := some "Whether to disable plugins" },
    { name := SingleOrList.list ["-d", "--working-dir"],
      description := some "If specified, use the given directory as working directory",
      args := some { name := some "dir", template := some "folders" } },
    { name := SingleOrList.single "--no-cache",
      description := some "Prevent use of the cache" },
    { name := SingleOrList.list ["-v", "--verbose"],
      description := some "Verbosity of messages: 1 for normal output" },
    { name := SingleOrList.single "-vv",
      description := some "Verbosity of messages: 2 for more verbose output" },
    { name := SingleOrList.single "-vvv",
      description := some "Verbosity of messages: 3 for debug" } ]

/-- The `recipes` / `symfony:recipes` subcommand pushed when the
`symfony.lock` probe reports the file present. -/
def recipesSubcommand : FigSubcommand :=
  { name := SingleOrList.list ["recipes", "symfony:recipes"]
    description := "Shows information about all available recipes"
    icon := composerIcon
    args := SingleOrList.single
      { name := some "package"
        description := some "Package to inspect, if not provided all packages are"
        isOptional := some true
        isVariadic := some false }
    options :=
      { name := SingleOrList.list ["-o", "--outdated"]
        description := some "Show only recipes that are outdated" } ::
      recipesCommonOptions }

/-- The `recipes:install` subcommand (with its four extra aliases) pushed
after `recipesSubcommand` when the `symfony.lock` probe reports the file
present. -/
def recipesInstallSubcommand : FigSubcommand :=
  { name := SingleOrList.list
      ["recipes:install", "symfony:recipes:install", "symfony:sync-recipes",
       "sync-recipes", "fix-recipes"]
    description := "Installs or reinstalls recipes for already installed packages"
    icon := composerIcon
    args := SingleOrList.single
      { name := some "packages"
        description := some "Recipes that should be installed"
        isVariadic := some true }
    options :=
      { name := SingleOrList.single "--force"
        description := some "Overwrite existing files when a new version of a recipe is available"
        isDangerous := some true } ::
      recipesCommonOptions }

/-- The test `!symfonyLock.endsWith("(No such file or directory)")` applied to
the textual output of the `file symfony.lock` probe. -/
def symfonyLockExists (symfonyLock : String) : Bool :=
  !(jsEndsWith symfonyLock "(No such file or directory)")

/-- One record of the parsed catalog's `commands` array as consumed by the
transformation loop: either a well-formed command, or a record whose field
accesses throw when the loop body reaches it (e.g. a missing `definition`). -/
inductive CmdRecord where
  | ok (c : ComposerCommand) : CmdRecord
  | malformed : CmdRecord
  deriving DecidableEq

/-- The `for (const command of data.commands)` loop of `generateSpec`: pushes
transformed subcommands in order until the list is exhausted (second
component `false`) or a malformed record throws (second component `true`),
in which case the subcommands pushed so far are kept. -/
def buildSubcommands : List CmdRecord → List FigSubcommand × Bool
  | [] => ([], false)
  | CmdRecord.ok c :: rest =>
      let r := buildSubcommands rest
      (transformCommand c :: r.1, r.2)
  | CmdRecord.malformed :: _ => ([], true)

/-- Mirrors `generateSpec`: the catalog JSON parse result is `none` on a
`JSON.parse` failure and `some records` otherwise.  All of the parse, the
transformation loop and the conditional recipe pushes run inside one `try`:
a parse failure leaves `subcommands` empty, a throw inside the loop leaves
the partially pushed list and skips the recipe pushes, and on success the
two recipe subcommands are appended exactly when `symfonyLockExists` holds
of the probe output.  The root always carries the name `composer`. -/
def generateSpec (parsedCatalog : Option (List CmdRecord))
    (symfonyLock : String) : FigSpecRoot :=
  match parsedCatalog with
  | none => { name := "composer", subcommands := [] }
  | some records =>
      let r := buildSubcommands records
      if r.2 then { name := "composer", subcommands := r.1 }
      else
        { name := "composer"
          subcommands :=
            if symfonyLockExists symfonyLock then
              r.1 ++ [recipesSubcommand, recipesInstallSubcommand]
            else r.1 }

/-! ### Concrete inputs used by closed instances of the theorems -/

/-- A concrete well-formed catalog command. -/
def witnessCommand : ComposerCommand :=
  { name := "require"
    usage := []
    description := "Adds required packages to your composer.json and installs them"
    help := ""
    definition :=
      { arguments :=
          [("packages",
            { name := "packages", is_required := true, is_array := true,
              description := "Package name", default := ComposerDefault.null })]
        options := [] } }

/-- A concrete catalog argument whose `default` is the one-element array
`["main"]`. -/
def witnessArgMain : ComposerArgument :=
  { name := "branch", is_required := false, is_array := false,
    description := "Branch to use", default := ComposerDefault.arr ["main"] }

/-- A concrete catalog argument whose `default` is the empty array. -/
def witnessArgEmptyArr : ComposerArgument :=
  { name := "paths", is_required := false, is_array := true,
    description := "Paths", default := ComposerDefault.arr [] }

/-- A concrete catalog option with an empty shortcut. -/
def witnessOptionA : ComposerOption :=
  { name := "--prefer-source", shortcut := "", accept_value := false,
    is_value_required := true, is_multiple := false,
    description := "Forces installation from package sources", default := none }

/-- A concrete catalog option, with the same `is_value_required` as
`witnessOptionA` but differing in every other field. -/
def witnessOptionB : ComposerOption :=
  { name := "--with", shortcut := "w", accept_value := true,
    is_value_required := true, is_multiple := true,
    description := "Temporary version constraint", default := some false }

/-- A concrete catalog option with the one-letter shortcut `"o"`. -/
def witnessOptionC : ComposerOption :=
  { name := "--output", shortcut := "o", accept_value := true,
    is_value_required := false, is_multiple := false,
    description := "Output target", default := none }

/-- A concrete catalog option whose shortcut carries surrounding
whitespace. -/
def witnessOptionSpaced : ComposerOption :=
  { name := "--output", shortcut := " o ", accept_value := false,
    is_value_required := false, is_multiple := false,
    description := "Output target", default := none }

/-! ### Helper lemmas -/

/-- Characterization of `PACKAGE_REGEXP` matching on character lists: the
list splits as a line-terminator-free run, a `/`, and another
line-terminator-free run. -/
lemma packageRegexpAux_iff (l : List Char) :
    packageRegexpAux l = true ↔
      ∃ A B, l = A ++ '/' :: B ∧ A.all isDotChar = true ∧ B.all isDotChar = true := by
  induction l with
  | nil =>
      simp [packageRegexpAux]
  | cons c rest ih =>
      simp only [packageRegexpAux, Bool.or_eq_true, Bool.and_eq_true,
        decide_eq_true_eq, ih]
      constructor
      · rintro (⟨hc, hrest⟩ | ⟨hc, A, B, rfl, hA, hB⟩)
        · exact ⟨[], rest, by simp [hc], rfl, hrest⟩
        · exact ⟨c :: A, B, rfl, by simp [List.all_cons, hc, hA], hB⟩
      · rintro ⟨A, B, hEq, hA, hB⟩
        cases A with
        | nil =>
            rw [List.nil_append] at hEq
            cases hEq
            exact Or.inl ⟨rfl, hB⟩
        | cons a A2 =>
            rw [List.cons_append] at hEq
            injection hEq with h1 h2
            subst h1
            rw [List.all_cons, Bool.and_eq_true] at hA
            exact Or.inr ⟨hA.1, A2, B, h2, hA.2, hB⟩

/-- The transformation loop maps a list of well-formed records to the list of
transformed subcommands without throwing. -/
lemma buildSubcommands_map_ok (cmds : List ComposerCommand) :
    buildSubcommands (cmds.map CmdRecord.ok) = (cmds.map transformCommand, false) := by
  induction cmds with
  | nil => rfl
  | cons c cs ih => simp [buildSubcommands, ih]

/-- The transformation loop stops at the first malformed record, keeping
exactly the subcommands already pushed. -/
lemma buildSubcommands_first_malformed (pre : List ComposerCommand)
    (rest : List CmdRecord) :
    buildSubcommands (pre.map CmdRecord.ok ++ CmdRecord.malformed :: rest)
      = (pre.map transformCommand, true) := by
  induction pre with
  | nil => rfl
  | cons c cs ih => simp [buildSubcommands, ih]

/-! ### Claim theorems -/

/-- Claim C1, counterexample: a catalog whose second command record is
malformed (its field accesses throw partway through the transformation)
yields a tree with one subcommand — a partially-built, non-empty list — not
the empty list the claim requires on any exception. -/
theorem generateSpec_partial_list_counterexample :
    (generateSpec (some [CmdRecord.ok witnessCommand, CmdRecord.malformed])
        "symfony.lock: ASCII text").subcommands
      = [transformCommand witnessCommand]
  ∧ (generateSpec (some [CmdRecord.ok witnessCommand, CmdRecord.malformed])
        "symfony.lock: ASCII text").subcommands ≠ [] :=
  ⟨rfl, List.cons_ne_nil _ _⟩

/-- Claim C1, amended: on a catalog JSON parse failure the entry point
returns a tree with an empty subcommand list; on an exception thrown by a
malformed command record partway through the transformation it returns the
subcommands built before the failing record (possibly a non-empty partial
list), and the two recipe subcommands are not appended on that path. -/
theorem generateSpec_exception_paths (pre : List ComposerCommand)
    (rest : List CmdRecord) (lock : String) :
    (generateSpec none lock).subcommands = []
  ∧ (generateSpec
        (some (pre.map CmdRecord.ok ++ CmdRecord.malformed :: rest))
        lock).subcommands
      = pre.map transformCommand := by
  refine ⟨rfl, ?_⟩
  simp [generateSpec, buildSubcommands_first_malformed]

/-- Claim C2: for a well-formed catalog of N commands, the emitted
subcommand list is exactly the transformed catalog commands in order (N
records) when the lock-file probe output ends with
"(No such file or directory)", and those N followed by the `recipes` and
`recipes:install` extras (N + 2 records) when it does not. -/
theorem generateSpec_subcommand_count_and_order
    (cmds : List ComposerCommand) (lock : String) :
    (jsEndsWith lock "(No such file or directory)" = true →
        (generateSpec (some (cmds.map CmdRecord.ok)) lock).subcommands
          = cmds.map transformCommand
      ∧ (generateSpec (some (cmds.map CmdRecord.ok)) lock).subcommands.length
          = cmds.length)
  ∧ (jsEndsWith lock "(No such file or directory)" = false →
        (generateSpec (some (cmds.map CmdRecord.ok)) lock).subcommands
          = cmds.map transformCommand
              ++ [recipesSubcommand, recipesInstallSubcommand]
      ∧ (generateSpec (some (cmds.map CmdRecord.ok)) lock).subcommands.length
          = cmds.length + 2) := by
  have hb := buildSubcommands_map_ok cmds
  constructor
  · intro h
    have hex : symfonyLockExists lock = false := by
      simp [symfonyLockExists, h]
    refine ⟨?_, ?_⟩ <;> simp [generateSpec, hb, hex]
  · intro h
    have hex : symfonyLockExists lock = true := by
      simp [symfonyLockExists, h]
    refine ⟨?_, ?_⟩ <;> simp [generateSpec, hb, hex]

/-- Witness for claim C2 at a one-command catalog, under both probe
outputs. -/
theorem generateSpec_subcommand_count_witness :
    (generateSpec (some [CmdRecord.ok witnessCommand])
        "symfony.lock: cannot open (No such file or directory)").subcommands.length = 1
  ∧ (generateSpec (some [CmdRecord.ok witnessCommand])
        "symfony.lock: ASCII text").subcommands.length = 3 :=
  ⟨((generateSpec_subcommand_count_and_order [witnessCommand]
      "symfony.lock: cannot open (No such file or directory)").1 (by decide)).2,
   ((generateSpec_subcommand_count_and_order [witnessCommand]
      "symfony.lock: ASCII text").2 (by decide)).2⟩

/-- Claim C3, counterexample: the key "/" matches `PACKAGE_REGEXP` (whose
`.*` parts may be empty) and is returned by the Dependency Extractor, not
excluded as the claim requires. -/
theorem filterRealDependencies_slash_counterexample :
    filterRealDependencies [("/", "^1.0")] = ["/"]
  ∧ ("/" : String) ∈ filterRealDependencies [("/", "^1.0")] := by
  constructor
  · rfl
  · decide

/-- Claim C3, amended: the Dependency Extractor returns, in source iteration
order, exactly the keys that split as a (possibly empty) run of
non-line-terminator characters, a `/`, and another (possibly empty) such
run; in particular "/", "/x" and "x/" are included. -/
theorem filterRealDependencies_characterization
    (deps : List (String × String)) :
    (filterRealDependencies deps).Sublist (deps.map Prod.fst)
  ∧ ∀ k, k ∈ filterRealDependencies deps ↔
      (k ∈ deps.map Prod.fst ∧
        ∃ A B, k.data = A ++ '/' :: B
          ∧ A.all isDotChar = true ∧ B.all isDotChar = true) := by
  constructor
  · exact List.filter_sublist _
  · intro k
    simp [filterRealDependencies, List.mem_filter, packageRegexpMatches,
      packageRegexpAux_iff]

/-- Claim C4: the generator attached to every emitted argument is the remote
search generator exactly when the enclosing command is named "require", the
local packages generator exactly when it is named "update" or "remove", and
the empty generator list otherwise. -/
theorem transformArgument_generators_by_command
    (cmdName : String) (arg : ComposerArgument) :
    ((transformArgument cmdName arg).generators
        = some (SingleOrList.single GeneratorRef.search) ↔ cmdName = "require")
  ∧ ((transformArgument cmdName arg).generators
        = some (SingleOrList.single GeneratorRef.packages)
      ↔ (cmdName = "update" ∨ cmdName = "remove"))
  ∧ ((transformArgument cmdName arg).generators = some (SingleOrList.list [])
      ↔ (cmdName ≠ "require" ∧ cmdName ≠ "update" ∧ cmdName ≠ "remove")) := by
  by_cases h1 : cmdName = "require" <;>
    by_cases h2 : cmdName = "update" <;>
      by_cases h3 : cmdName = "remove" <;>
        simp_all [transformArgument, packagesGeneratorTriggersCommands,
          List.contains]

/-- Claim C5: the emitted default of an argument is the first element of a
non-empty array default, the string itself for a truthy (non-empty) string
default, and absent for a `null` or falsy (empty-string) default. -/
theorem transformArgument_default_resolution
    (cmdName : String) (arg : ComposerArgument) :
    (∀ s l, arg.default = ComposerDefault.arr (s :: l) →
        (transformArgument cmdName arg).default = some s)
  ∧ (∀ s, s ≠ "" → arg.default = ComposerDefault.str s →
        (transformArgument cmdName arg).default = some s)
  ∧ (arg.default = ComposerDefault.null →
        (transformArgument cmdName arg).default = none)
  ∧ (arg.default = ComposerDefault.str "" →
        (transformArgument cmdName arg).default = none) := by
  refine ⟨?_, ?_, ?_, ?_⟩
  · intro s l h
    simp [transformArgument, resolveDefault, jsTruthy, h]
  · intro s hs h
    simp [transformArgument, resolveDefault, jsTruthy, h, hs]
  · intro h
    simp [transformArgument, resolveDefault, jsTruthy, h]
  · intro h
    simp [transformArgument, resolveDefault, jsTruthy, h]

/-- Witness for claim C5: the default `["main"]` is emitted as the scalar
"main", and a `null` default is emitted as absent. -/
theorem transformArgument_default_resolution_witness :
    (transformArgument "init" witnessArgMain).default = some "main"
  ∧ (transformArgument "require"
      { name := "packages", is_required := true, is_array := true,
        description := "Package name",
        default := ComposerDefault.null }).default = none :=
  ⟨(transformArgument_default_resolution "init" witnessArgMain).1 "main" [] rfl,
   (transformArgument_default_resolution "require"
      { name := "packages", is_required := true, is_array := true,
        description := "Package name",
        default := ComposerDefault.null }).2.2.1 rfl⟩

/-- Claim C6: the `isRequired` flag of every emitted option equals the
catalog option's `is_value_required` field, and two catalog options with
equal `is_value_required` yield equal `isRequired` flags no matter how every
other field differs. -/
theorem transformOption_required_flag (o1 o2 : ComposerOption) :
    (transformOption o1).isRequired = some o1.is_value_required
  ∧ (o1.is_value_required = o2.is_value_required →
      (transformOption o1).isRequired = (transformOption o2).isRequired) := by
  constructor
  · rfl
  · intro h
    simp [transformOption, h]

/-- Witness for claim C6 at two concrete options that agree only on
`is_value_required`. -/
theorem transformOption_required_flag_witness :
    (transformOption witnessOptionA).isRequired = some true
  ∧ (transformOption witnessOptionA).isRequired
      = (transformOption witnessOptionB).isRequired :=
  ⟨(transformOption_required_flag witnessOptionA witnessOptionB).1,
   (transformOption_required_flag witnessOptionA witnessOptionB).2 rfl⟩

/-- Claim C7: the emitted alias list of every option starts with the
option's primary name; it has exactly that one entry when the shortcut is
blank after trimming, and exactly the primary name followed by the shortcut
when the trimmed shortcut is non-empty. -/
theorem transformOption_alias_list (opt : ComposerOption) :
    (transformOption opt).name.toList.head? = some opt.name
  ∧ (¬ 0 < (jsTrim opt.shortcut).length →
      (transformOption opt).name.toList = [opt.name])
  ∧ (0 < (jsTrim opt.shortcut).length →
      (transformOption opt).name.toList = [opt.name, opt.shortcut]) := by
  refine ⟨?_, ?_, ?_⟩
  · by_cases h : 0 < (jsTrim opt.shortcut).length <;>
      simp [transformOption, SingleOrList.toList, h]
  · intro h
    simp [transformOption, SingleOrList.toList, h]
  · intro h
    simp [transformOption, SingleOrList.toList, h]

/-- Witness for claim C7: shortcut "" yields exactly one alias, shortcut
"o" yields exactly two. -/
theorem transformOption_alias_list_witness :
    (transformOption witnessOptionA).name.toList = ["--prefer-source"]
  ∧ (transformOption witnessOptionC).name.toList = ["--output", "o"] :=
  ⟨(transformOption_alias_list witnessOptionA).2.1 (by decide),
   (transformOption_alias_list witnessOptionC).2.2 (by decide)⟩

/-- Claim C8: with an empty final context token the search generator's
script is the empty command (no external query), and its post-processing
returns the empty sequence whenever the parse-and-extract step of the query
output throws. -/
theorem searchGenerator_empty_term_and_errors :
    (∀ context : List String,
        context.getLast? = some "" → searchScript context = "")
  ∧ (∀ e : String, searchPostProcess (Except.error e) = []) := by
  constructor
  · intro context h
    simp [searchScript, h]
  · intro e
    rfl

/-- Witness for claim C8 at a concrete context and a concrete parse
error. -/
theorem searchGenerator_empty_term_witness :
    searchScript ["install", ""] = ""
  ∧ searchPostProcess (Except.error "SyntaxError") = [] :=
  ⟨searchGenerator_empty_term_and_errors.1 ["install", ""] rfl,
   searchGenerator_empty_term_and_errors.2 "SyntaxError"⟩

/-- Claim C9: an argument whose `default` is the empty array is emitted with
no default value, because the array is truthy and its first element is
`undefined`. -/
theorem transformArgument_empty_array_default
    (cmdName : String) (arg : ComposerArgument)
    (h : arg.default = ComposerDefault.arr []) :
    (transformArgument cmdName arg).default = none := by
  simp [transformArgument, resolveDefault, jsTruthy, h]

/-- Witness for claim C9 at a concrete argument with default `[]`. -/
theorem transformArgument_empty_array_default_witness :
    (transformArgument "init" witnessArgEmptyArr).default = none :=
  transformArgument_empty_array_default "init" witnessArgEmptyArr rfl

/-- Claim C10: when the trimmed shortcut is non-empty, the alias appended to
the emitted alias list is the original untrimmed shortcut string; in
particular when the shortcut differs from its trimmed form the appended
alias is not the trimmed form. -/
theorem transformOption_untrimmed_shortcut (opt : ComposerOption)
    (h : 0 < (jsTrim opt.shortcut).length) :
    (transformOption opt).name.toList.getLast? = some opt.shortcut
  ∧ (opt.shortcut ≠ jsTrim opt.shortcut →
      (transformOption opt).name.toList.getLast? ≠ some (jsTrim opt.shortcut)) := by
  constructor
  · simp [transformOption, SingleOrList.toList, h]
  · intro hne
    simp [transformOption, SingleOrList.toList, h]
    exact hne

/-- Witness for claim C10 at the shortcut " o ": the appended alias is
" o " itself, not its trimmed form "o". -/
theorem transformOption_untrimmed_shortcut_witness :
    (transformOption witnessOptionSpaced).name.toList.getLast? = some " o "
  ∧ (transformOption witnessOptionSpaced).name.toList.getLast? ≠ some "o" := by
  have h := transformOption_untrimmed_shortcut witnessOptionSpaced (by decide)
  have ht : jsTrim witnessOptionSpaced.shortcut = "o" := by decide
  exact ⟨h.1, by
    have h2 := h.2 (by decide)
    rw [ht] at h2
    exact h2⟩
